import Mathlib

/-!
Verification development for the cg-local-app bridge (src/src/main.rs).

The program is a local synchronization bridge between a text file on disk
and a browser extension speaking a JSON-over-WebSocket protocol.  The
development below is a shallow embedding of its coordination core:

* the wire-message vocabulary (`ServerMessage`) and the internal channel
  message enums (`ConnectedMessage`, `WorkerMessage`, `WorkerNotification`,
  `ConnectedNotification`, `ListenMessage`),
* one iteration of the session handler loop (`handle_accept_step`,
  from `handle_accept`),
* the controller state machine (`run_controller_step` /
  `run_controller_run`, from `run_controller`),
* the accept loop with its admission semaphore (`run_accept_step` /
  `run_accept_run`, from `run_accept`),
* the error dispatch of `accept_connection` and the result propagation
  through `spawn_worker` and `main`,
* the filesystem-watch closure installed in `spawn_worker`
  (`watch_event_handler`),
* the channel capacities chosen in `spawn_worker` and a small model of
  bounded-channel sends (`Chan.send`).

External collaborators (the serde JSON parser, the filesystem, path
canonicalization) enter as explicit function parameters; everything that
is logic of this repository is translated clause by clause from the
source.
-/

/-- Wire protocol messages, from the `ServerMessage` enum
(src/src/main.rs lines 126-151).  `question_id` is an `i32` in the
source; message payloads never do arithmetic on it, so `Int` is a
faithful model. -/
inductive ServerMessage where
  | SendDetails
  | Details (title : String) (question_id : Int)
  | AppReady
  | AlreadyConnected
  | UpdateCode (code : String) (play : Bool)
  | SendCode
  | Code (code : String)
  | SetReadOnly (state : Bool)
  | Error (message : String)
deriving DecidableEq, Repr

/-- Commands the controller sends to the admitted session, from the
`ConnectedMessage` enum (lines 287-293). -/
inductive ConnectedMessage where
  | AppReady
  | UpdateCode (code : String) (play : Bool)
  | SendCode
  | Terminate
deriving DecidableEq, Repr

/-- Messages into the controller from the watcher and the presentation
layer, from the `WorkerMessage` enum (lines 295-302).  The watch error is
a `std::io::Error` in the source, carried opaquely; its display string is
all the controller uses, so `String` models it. -/
inductive WorkerMessage where
  | FileChanged (code : String)
  | WatchError (error : String)
  | Start (download : Bool)
  | Stop
  | Terminate
deriving DecidableEq, Repr

/-- Status notifications from the controller to the presentation layer,
from the `WorkerNotification` enum (lines 304-310). -/
inductive WorkerNotification where
  | Details (title : String) (question_id : Int)
  | Initialized
  | Stopped
  | Terminate
deriving DecidableEq, Repr

/-- Notifications from the session handler to the controller, from the
`ConnectedNotification` enum (lines 312-316). -/
inductive ConnectedNotification where
  | Details (title : String) (question_id : Int)
  | Code (code : String)
deriving DecidableEq, Repr

/-- The single listener control message, from the `ListenMessage` enum
(lines 318-321). -/
inductive ListenMessage where
  | Terminate
deriving DecidableEq, Repr

/-- Inbound WebSocket frames as the session loop sees them
(`tungstenite::Message`).  Only the text payload matters to the handler;
every non-text variant falls through the `if let Text` with no `else`
branch. -/
inductive WsFrame where
  | text (s : String)
  | binary
  | ping
  | pong
  | close
deriving DecidableEq, Repr

/-- The two `select!` sources of the session loop in `handle_accept`
(lines 181-237): the peer's WebSocket stream and the controller-facing
channel.  `none` models a closed stream / closed channel. -/
inductive SessionEvent where
  | fromPeer (frame : Option WsFrame)
  | fromController (msg : Option ConnectedMessage)
deriving DecidableEq, Repr

/-- Observable effects of one session-loop iteration: an outbound wire
frame or a notification sent on the controller channel. -/
inductive SessionAction where
  | sendFrame (m : ServerMessage)
  | notifyController (n : ConnectedNotification)
deriving DecidableEq, Repr

/-- One iteration of the session handler loop, from `handle_accept`
(src/src/main.rs lines 181-238).  `parse` stands for
`serde_json::from_str::<ServerMessage>`, an external collaborator.
Returns the effects of the iteration and whether the loop continues
(`false` models `break`). -/
def handle_accept_step (parse : String → Except String ServerMessage) :
    SessionEvent → List SessionAction × Bool
  | .fromPeer none => ([], false)
  | .fromPeer (some (.text s)) =>
    match parse s with
    | .ok (.Details title question_id) =>
      ([.notifyController (.Details title question_id)], true)
    | .ok (.Code code) => ([.notifyController (.Code code)], true)
    | .ok _ => ([.sendFrame (.Error "unexpected message")], true)
    | .error err => ([.sendFrame (.Error err)], true)
  | .fromPeer (some _) => ([], true)
  | .fromController none => ([], false)
  | .fromController (some .AppReady) => ([.sendFrame .AppReady], true)
  | .fromController (some (.UpdateCode code play)) =>
    ([.sendFrame (.UpdateCode code play)], true)
  | .fromController (some .SendCode) => ([.sendFrame .SendCode], true)
  | .fromController (some .Terminate) => ([], false)

/-- The denial handshake of `handle_deny` (lines 261-272): accept the
WebSocket, send `already-connected`, close. -/
def handle_deny_actions : List ServerMessage := [.AlreadyConnected]

/-- True for the wire variants that the session loop's catch-all arm
answers with the generic `error` reply: everything except `details` and
`code` (lines 195-204). -/
def unexpected_variant : ServerMessage → Bool
  | .Details _ _ => false
  | .Code _ => false
  | _ => true

/-- The two `select!` sources of the controller loop in `run_controller`
(lines 381-464): the worker-message channel (watcher + presentation) and
the session-notification channel.  `none` models a closed channel. -/
inductive CtrlInput where
  | worker (msg : Option WorkerMessage)
  | connNotif (msg : Option ConnectedNotification)
deriving DecidableEq, Repr

/-- Observable effects of one controller-loop iteration: sends on the
session, listener and presentation channels, and an attempted write of
the target file. -/
inductive CtrlOutput where
  | toConnected (m : ConnectedMessage)
  | toListen (m : ListenMessage)
  | toNotif (n : WorkerNotification)
  | writeFile (content : String)
deriving DecidableEq, Repr

/-- One iteration of the controller loop, from `run_controller`
(src/src/main.rs lines 381-465).  `play` is the current value of the
shared `opts.play` flag read under the lock; `writeOk` models whether
`std::fs::write` of the target file succeeds; `pending` is the local
`send_code_pending` variable; `file` is the current content of the
target file.  Returns the new `send_code_pending`, the new file content,
the effects in emission order, and whether the loop continues (`false`
models `break`).  Note the source has no `else` arm on the
session-notification `if let`, so a closed notification channel does not
break the loop. -/
def run_controller_step (play writeOk pending : Bool) (file : String) :
    CtrlInput → Bool × String × List CtrlOutput × Bool
  | .worker none => (pending, file, [], false)
  | .worker (some (.FileChanged code)) =>
    (pending, file, [.toConnected (.UpdateCode code play)], true)
  | .worker (some (.WatchError _)) => (pending, file, [], true)
  | .worker (some (.Start download)) =>
    (download, file, [.toConnected .AppReady, .toNotif .Initialized], true)
  | .worker (some .Stop) => (false, file, [.toNotif .Stopped], true)
  | .worker (some .Terminate) => (pending, file, [], false)
  | .connNotif none => (pending, file, [], true)
  | .connNotif (some (.Details title question_id)) =>
    (pending, file, [.toNotif (.Details title question_id)], true)
  | .connNotif (some (.Code code)) =>
    if pending then
      (false, (if writeOk then code else file), [.writeFile code], true)
    else
      (pending, file, [], true)

/-- The shutdown cascade executed after the controller loop breaks
(lines 467-477): terminate the session channel, then the listener
channel, then the presentation channel, in that order. -/
def run_controller_shutdown : List CtrlOutput :=
  [.toConnected .Terminate, .toListen .Terminate, .toNotif .Terminate]

/-- The controller loop run over a sequence of inputs: iterate
`run_controller_step` until a `break`, then append the shutdown cascade.
Returns the final `send_code_pending`, the final file content, and all
effects in emission order.  Inputs after a `break` are never consumed. -/
def run_controller_run (play writeOk pending : Bool) (file : String) :
    List CtrlInput → Bool × String × List CtrlOutput
  | [] => (pending, file, [])
  | i :: rest =>
    match run_controller_step play writeOk pending file i with
    | (p2, f2, out, cont) =>
      if cont then
        match run_controller_run play writeOk p2 f2 rest with
        | (p3, f3, out2) => (p3, f3, out ++ out2)
      else
        (p2, f2, out ++ run_controller_shutdown)

/-- State of the accept loop in `run_accept` (lines 332-366).
`activeGuards` is the number of live guards of the capacity-1 admission
semaphore (`semaphore::Semaphore::new(1, ())`); `running` counts the
spawned `accept_connection` tasks whose protocol loop has not yet
exited; `admitted` and `denied` count the connections sent to each
path. -/
structure AcceptState where
  activeGuards : Nat
  running : Nat
  admitted : Nat
  denied : Nat
deriving DecidableEq, Repr

/-- `try_access` of the capacity-1 semaphore: hands out a guard when no
guard is live, otherwise fails with `NoCapacity` (`none`). -/
def try_access (active : Nat) : Option Nat :=
  if active < 1 then some (active + 1) else none

/-- Events driving the accept loop: an accepted transport connection, a
spawned session finishing its loop, and `ListenMessage::Terminate` on the
listener channel. -/
inductive AcceptEvent where
  | accept
  | sessionExit
  | terminate
deriving DecidableEq, Repr

/-- One iteration of the accept loop, from `run_accept`
(src/src/main.rs lines 335-366).  On an accepted connection the source
runs `match res.try_access() { Ok(_) => task::spawn(accept_connection(..)),
Err(NoCapacity) => task::spawn(deny_connection(..)), Err(_) => break }`.
The guard is matched by the wildcard pattern `Ok(_)`, so it is not moved
into the arm; it is dropped when the match expression ends, which
releases the permit within the same iteration — hence `activeGuards`
goes back down to `acquired - 1` before the step returns.  A session
exiting its loop has no effect on the semaphore. -/
def run_accept_step (s : AcceptState) : AcceptEvent → AcceptState × Bool
  | .accept =>
    match try_access s.activeGuards with
    | some acquired =>
      ({ s with
          activeGuards := acquired - 1,
          running := s.running + 1,
          admitted := s.admitted + 1 }, true)
    | none => ({ s with denied := s.denied + 1 }, true)
  | .sessionExit => ({ s with running := s.running - 1 }, true)
  | .terminate => (s, false)

/-- The accept loop run over a sequence of events, iterating
`run_accept_step` until a `break`. -/
def run_accept_run (s : AcceptState) : List AcceptEvent → AcceptState
  | [] => s
  | e :: rest =>
    match run_accept_step s e with
    | (s2, cont) => if cont then run_accept_run s2 rest else s2

/-- Follows the spec's words, for comparison with `run_accept_step`
(§3 "Admission Permit": acquired by Listener per accepted transport
connection attempt; released when the Session Handler's loop exits).
Identical to the source step except that the guard is held by the
admitted session and released only at `sessionExit`. -/
def run_accept_step_spec (s : AcceptState) : AcceptEvent → AcceptState × Bool
  | .accept =>
    match try_access s.activeGuards with
    | some acquired =>
      ({ s with
          activeGuards := acquired,
          running := s.running + 1,
          admitted := s.admitted + 1 }, true)
    | none => ({ s with denied := s.denied + 1 }, true)
  | .sessionExit =>
    ({ s with activeGuards := s.activeGuards - 1, running := s.running - 1 }, true)
  | .terminate => (s, false)

/-- The spec-side accept loop run, iterating `run_accept_step_spec`. -/
def run_accept_run_spec (s : AcceptState) : List AcceptEvent → AcceptState
  | [] => s
  | e :: rest =>
    match run_accept_step_spec s e with
    | (s2, cont) => if cont then run_accept_run_spec s2 rest else s2

/-- The tungstenite error variants that `accept_connection` treats as
benign session termination (lines 251-253). -/
inductive TungsteniteError where
  | connectionClosed
  | protocolErr (message : String)
  | utf8
  | otherWs (message : String)
deriving DecidableEq, Repr

/-- The application error type built by the `error_chain!` invocation
(lines 113-124): WebSocket errors, internal channel-send errors (tagged
with the channel's message type name), and I/O errors. -/
inductive AppError where
  | webSocket (e : TungsteniteError)
  | channelSendError (channel : String)
  | ioErr (message : String)
deriving DecidableEq, Repr

/-- What a component does with an error besides its return value. -/
inductive LogAction where
  | silent
  | logError (message : String)
deriving DecidableEq, Repr

/-- The error dispatch of `accept_connection` (src/src/main.rs lines
243-259): it runs `handle_accept` and matches its `Result`.  The three
benign WebSocket terminations (`ConnectionClosed`, `Protocol(_)`,
`Utf8`) are ignored; every other error — including a channel-send
failure — is logged with `error!("error processing connection: ...")`.
In all cases the function returns `Ok(())`, so no error ever escapes the
spawned session task. -/
def accept_connection (inner : Except AppError Unit) :
    LogAction × Except AppError Unit :=
  match inner with
  | .ok _ => (.silent, .ok ())
  | .error (.webSocket .connectionClosed) => (.silent, .ok ())
  | .error (.webSocket (.protocolErr _)) => (.silent, .ok ())
  | .error (.webSocket .utf8) => (.silent, .ok ())
  | .error _ => (.logError "error processing connection", .ok ())

/-- The worker thread body spawned by `spawn_worker` (lines 536-560):
`task::block_on(...)?` rethrows the controller's error, otherwise the
thread drops the watcher and returns `Ok(())`. -/
def spawn_worker_thread (controllerResult : Except AppError Unit) :
    Except AppError Unit :=
  match controllerResult with
  | .ok _ => .ok ()
  | .error e => .error e

/-- The join point in `main` (lines 727-730):
`join_handle.join().unwrap()?` rethrows the worker thread's error as the
process result, so a worker error makes the process exit with an
error. -/
def main_join (workerResult : Except AppError Unit) :
    Except AppError Unit :=
  match workerResult with
  | .ok _ => .ok ()
  | .error e => .error e

/-- The filesystem events delivered by the `hotwatch` crate.  The
closure in `spawn_worker` matches only `NoticeWrite`, `Create` and
`Write`; every other variant hits the `_ => {}` arm. -/
inductive HotwatchEvent where
  | noticeWrite (path : String)
  | noticeRemove (path : String)
  | create (path : String)
  | write (path : String)
  | chmod (path : String)
  | remove (path : String)
  | rename (src dst : String)
  | rescan
deriving DecidableEq, Repr

/-- The watch closure installed by `spawn_worker` (src/src/main.rs lines
504-532).  `canonicalize` stands for `async_std::fs::canonicalize` and
`read_to_string` for `async_std::fs::read_to_string`, both external.
For a `NoticeWrite`/`Create`/`Write` event the source canonicalizes the
configured target path only, compares the event path verbatim against
the canonicalized target (`PathBuf::from(path) == target`), and on a
match reads the canonicalized target: `Ok(code)` becomes
`FileChanged { code }`, `Err(error)` becomes `WatchError { error }`.
A failed canonicalization, a non-matching path, or any other event kind
produces nothing. -/
def watch_event_handler (canonicalize : String → Option String)
    (read_to_string : String → Except String String) (target : String) :
    HotwatchEvent → Option WorkerMessage
  | .noticeWrite path | .create path | .write path =>
    match canonicalize target with
    | some ctarget =>
      if path = ctarget then
        match read_to_string ctarget with
        | .ok code => some (.FileChanged code)
        | .error error => some (.WatchError error)
      else none
    | none => none
  | _ => none

/-- Follows the spec's words, for comparison with `watch_event_handler`
(§4.4: "canonicalize both the event path and the configured target path,
compare; on match, read the file's full text").  Identical to the source
handler except that the event path is canonicalized as well before the
comparison. -/
def watch_event_handler_spec (canonicalize : String → Option String)
    (read_to_string : String → Except String String) (target : String) :
    HotwatchEvent → Option WorkerMessage
  | .noticeWrite path | .create path | .write path =>
    match canonicalize path, canonicalize target with
    | some cpath, some ctarget =>
      if cpath = ctarget then
        match read_to_string ctarget with
        | .ok code => some (.FileChanged code)
        | .error error => some (.WatchError error)
      else none
    | _, _ => none
  | _ => none

/-- A message channel with its creation-time capacity (`none` means
unbounded) and its buffer of not-yet-consumed messages. -/
structure Chan (α : Type) where
  cap : Option Nat
  buf : List α
deriving Repr

/-- One send on a channel: on an unbounded channel it always enqueues;
on a bounded channel it enqueues while the buffer is below capacity and
otherwise returns `none`, modelling the sender suspending until a value
is consumed. -/
def Chan.send {α : Type} (c : Chan α) (x : α) : Option (Chan α) :=
  match c.cap with
  | none => some { c with buf := c.buf ++ [x] }
  | some n =>
    if c.buf.length < n then some { c with buf := c.buf ++ [x] } else none

/-- Capacity of the worker-message channel (presentation and watcher to
controller), `async_std::channel::bounded(1)` at line 494. -/
def tx_controller_capacity : Option Nat := some 1

/-- Capacity of the listener control channel,
`async_std::channel::bounded(1)` at line 495. -/
def tx_listen_capacity : Option Nat := some 1

/-- Capacity of the controller-to-session channel,
`async_std::channel::bounded(1)` at line 496. -/
def tx_connected_capacity : Option Nat := some 1

/-- Capacity of the controller-to-presentation notification channel:
`std::sync::mpsc::channel()` at line 497, which is unbounded. -/
def tx_notification_capacity : Option Nat := none

/-- Capacity of the session-to-controller notification channel,
`async_std::channel::bounded(1)` at line 498. -/
def tx_conn_notification_capacity : Option Nat := some 1

/-- The controller states named by the spec (§4.3); the source's
`run_controller` has no such variable — its only state is
`send_code_pending` — so this type exists only to state the spec's
claimed gating of `FileChanged`. -/
inductive SpecCtrlState where
  | Idle
  | Ready
  | Syncing
  | Terminating
deriving DecidableEq, Repr

/-- Follows the spec's words, for comparison with `run_controller_step`
(§4.3: "`FileChanged{code}` (from Watcher) while Syncing → forward
`UpdateCode{code, play}` to the admitted Session; ignored in any other
state"). -/
def spec_filechanged_outputs (st : SpecCtrlState) (code : String)
    (play : Bool) : List CtrlOutput :=
  if st = .Syncing then [.toConnected (.UpdateCode code play)] else []

/-- A concrete stand-in for the serde parser, used to instantiate
hypothetical statements about `handle_accept_step` at concrete inputs. -/
def parse_example (s : String) : Except String ServerMessage :=
  if s = "b" then .ok .AppReady else .error "bad JSON"

/-- A concrete path-canonicalization function: both the relative name
`./t` and the absolute name `/t` resolve to `/t`; everything else fails
to resolve. -/
def canonicalize_example (p : String) : Option String :=
  if p = "./t" then some "/t" else if p = "/t" then some "/t" else none

/-- A concrete file reader: the file `/t` holds `abc`; reading anything
else fails. -/
def read_to_string_example (p : String) : Except String String :=
  if p = "/t" then .ok "abc" else .error "not found"

/-- Claim C1, evaluated at the failing input.  The code violates the
claim: in `run_accept` the semaphore guard is matched as `Ok(_)`, so it
is dropped — and the permit released — at the end of the match
expression, within the same loop iteration.  Two connection attempts
accepted while the first session is still in its protocol loop are
therefore BOTH admitted (`running = 2`, `denied = 0`), and the denial
path is never taken; under the spec's permit discipline (permit held
until the session loop exits) the second attempt is denied with the
`already-connected` handshake. -/
theorem c1_admission_bug :
    run_accept_run ⟨0, 0, 0, 0⟩ [.accept, .accept] = ⟨0, 2, 2, 0⟩ ∧
    run_accept_run_spec ⟨0, 0, 0, 0⟩ [.accept, .accept] = ⟨1, 1, 1, 1⟩ ∧
    handle_deny_actions = [.AlreadyConnected] :=
  ⟨rfl, rfl, rfl⟩

/-- Claim C2, counterexample.  A controller that has processed no input
at all — in the spec's state machine this is the Idle state, not
Syncing — still forwards a `FileChanged` event as an outbound
`update-code` command to the session, while the spec's gating produces
no output in Idle.  The claim "in every other state the event is
ignored" is therefore false of the code. -/
theorem c2_counterexample :
    (run_controller_run true true false "" [.worker (some (.FileChanged "x"))]).2.2
      = [.toConnected (.UpdateCode "x" true)] ∧
    spec_filechanged_outputs .Idle "x" true = [] :=
  ⟨rfl, rfl⟩

/-- Claim C2 as amended: a `FileChanged{code}` event from the Watcher
always causes the controller to forward `UpdateCode{code, play}` with
the current play flag, unconditionally — the source's `run_controller`
keeps no Idle/Ready/Syncing/Terminating distinction, and its only state
(`send_code_pending`) does not gate the forwarding. -/
theorem c2_filechanged_unconditional (play writeOk pending : Bool)
    (file code : String) :
    run_controller_step play writeOk pending file
        (.worker (some (.FileChanged code)))
      = (pending, file, [.toConnected (.UpdateCode code play)], true) := rfl

/-- Claim C3: a `Code{code}` notification with the pending-download flag
set writes `code` verbatim to the target file and clears the flag; on a
write failure the flag is still cleared and the file is unchanged (one
attempted write, no retry); with the flag clear the notification is
discarded and the file untouched; and across two consecutive `Code`
notifications only the first is persisted (consume-once, no
buffering). -/
theorem c3_code_download (play : Bool) (file code c1 c2 : String) :
    run_controller_step play true true file (.connNotif (some (.Code code)))
      = (false, code, [.writeFile code], true) ∧
    run_controller_step play false true file (.connNotif (some (.Code code)))
      = (false, file, [.writeFile code], true) ∧
    (∀ writeOk : Bool,
      run_controller_step play writeOk false file (.connNotif (some (.Code code)))
        = (false, file, [], true)) ∧
    run_controller_run play true true file
        [.connNotif (some (.Code c1)), .connNotif (some (.Code c2))]
      = (false, c1, [.writeFile c1]) :=
  ⟨rfl, rfl, fun _ => rfl, rfl⟩

/-- Claim C4: on a `Terminate` command the controller exits its loop
without touching its state or the file, consumes no further input, and
emits exactly — and in this causal order — `Terminate` on the session
channel, `Terminate` on the listener channel, and a `Terminate`
notification to presentation; the session handler reacts to its
`Terminate` by sending nothing further and exiting its loop, and the
accept loop reacts to its `Terminate` by exiting. -/
theorem c4_shutdown_cascade (play writeOk pending : Bool) (file : String)
    (rest : List CtrlInput) (parse : String → Except String ServerMessage)
    (s : AcceptState) :
    run_controller_run play writeOk pending file
        (.worker (some .Terminate) :: rest)
      = (pending, file,
          [.toConnected .Terminate, .toListen .Terminate, .toNotif .Terminate]) ∧
    handle_accept_step parse (.fromController (some .Terminate)) = ([], false) ∧
    run_accept_step s .terminate = (s, false) :=
  ⟨rfl, rfl, rfl⟩

/-- Claim C5, counterexample.  The controller-to-presentation
notification channel created in `spawn_worker` is
`std::sync::mpsc::channel()`, which is unbounded: its capacity is not 1,
and a send with one message already unconsumed still succeeds, so two
messages can be in flight on it at once. -/
theorem c5_counterexample :
    tx_notification_capacity ≠ some 1 ∧
    Chan.send ⟨tx_notification_capacity, [WorkerNotification.Initialized]⟩ .Stopped
      = some ⟨none, [.Initialized, .Stopped]⟩ :=
  ⟨by decide, rfl⟩

/-- Claim C5 as amended: the four async channels created in
`spawn_worker` (worker messages, listener control, controller-to-session
commands, session-to-controller notifications) are bounded to capacity
1, so a send on them with one unconsumed message suspends the sender;
the controller-to-presentation notification channel is an unbounded
`std::sync::mpsc` channel on which a send never suspends. -/
theorem c5_channel_capacities (m : ConnectedMessage)
    (n1 n2 : WorkerNotification) :
    tx_controller_capacity = some 1 ∧
    tx_listen_capacity = some 1 ∧
    tx_connected_capacity = some 1 ∧
    tx_conn_notification_capacity = some 1 ∧
    tx_notification_capacity = none ∧
    Chan.send ⟨tx_connected_capacity, [m]⟩ .SendCode = none ∧
    Chan.send ⟨tx_notification_capacity, [n1]⟩ n2 = some ⟨none, [n1, n2]⟩ :=
  ⟨rfl, rfl, rfl, rfl, rfl, rfl, rfl⟩

/-- Claim C6: an inbound text frame that fails to parse is answered with
an `error` frame carrying the parse-failure text, and one that parses to
a variant other than `details` or `code` is answered with the generic
`error{"unexpected message"}` frame; in both cases nothing is forwarded
to the controller and the session loop continues. -/
theorem c6_error_reply (parse : String → Except String ServerMessage)
    (s e : String) (m : ServerMessage) :
    (parse s = .error e →
      handle_accept_step parse (.fromPeer (some (.text s)))
        = ([.sendFrame (.Error e)], true)) ∧
    (parse s = .ok m → unexpected_variant m = true →
      handle_accept_step parse (.fromPeer (some (.text s)))
        = ([.sendFrame (.Error "unexpected message")], true)) := by
  constructor
  · intro h
    simp [handle_accept_step, h]
  · intro h hm
    cases m <;> simp_all [handle_accept_step, unexpected_variant]

/-- Instantiation of the C6 theorem at a concrete parser: the string
`a` fails to parse and is answered with its parse-error text, while `b`
parses to the out-of-context `app-ready` variant and is answered with
the generic reply. -/
theorem c6_error_reply_witness :
    handle_accept_step parse_example (.fromPeer (some (.text "a")))
      = ([.sendFrame (.Error "bad JSON")], true) ∧
    handle_accept_step parse_example (.fromPeer (some (.text "b")))
      = ([.sendFrame (.Error "unexpected message")], true) :=
  ⟨(c6_error_reply parse_example "a" "bad JSON" .AppReady).1 rfl,
   (c6_error_reply parse_example "b" "" .AppReady).2 rfl rfl⟩

/-- Claim C7, counterexample.  A channel-send failure inside the session
handler is not fatal: `accept_connection` catches every error from
`handle_accept` — a channel-send failure is not one of the three benign
WebSocket terminations, so it is logged — and returns `Ok(())`, so the
failure is downgraded to a log-only event and never reaches the process
boundary. -/
theorem c7_counterexample :
    accept_connection (.error (.channelSendError "ConnectedNotification"))
      = (.logError "error processing connection", .ok ()) := rfl

/-- Claim C7 as amended: a channel-send failure in the controller is
fatal — `run_controller`'s error becomes the worker thread's result,
which `main` rethrows as the process result — but in the session handler
task `accept_connection` always returns success, logging (rather than
propagating) a channel-send failure, so only that session ends and the
process continues. -/
theorem c7_fatality_split (e : AppError) (ch : String)
    (inner : Except AppError Unit) :
    main_join (spawn_worker_thread (.error e)) = .error e ∧
    (accept_connection inner).2 = .ok () ∧
    accept_connection (.error (.channelSendError ch))
      = (.logError "error processing connection", .ok ()) := by
  refine ⟨rfl, ?_, rfl⟩
  rcases inner with (we | c | io) | u
  · rcases we with _ | m | _ | m <;> rfl
  · rfl
  · rfl
  · rfl

/-- Claim C8: a `Stop` command received while the controller is already
stopped (pending-download false) again emits exactly one `Stopped`
notification, leaves pending-download false and the file untouched, and
the loop continues; issuing it twice just emits `Stopped` twice, with no
file write either time. -/
theorem c8_stop_idempotent (play writeOk : Bool) (file : String) :
    run_controller_step play writeOk false file (.worker (some .Stop))
      = (false, file, [.toNotif .Stopped], true) ∧
    run_controller_run play writeOk false file
        [.worker (some .Stop), .worker (some .Stop)]
      = (false, file, [.toNotif .Stopped, .toNotif .Stopped]) :=
  ⟨rfl, rfl⟩

/-- Claim C9, counterexample.  A write event for the path `./t` with the
target configured as `./t` (both canonicalizing to `/t`) produces no
event at all in the source handler, because the source compares the raw
event path against the canonicalized target (`./t` vs `/t`); the spec's
both-sides canonicalization would have matched and emitted
`FileChanged{"abc"}`. -/
theorem c9_counterexample :
    watch_event_handler canonicalize_example read_to_string_example "./t"
        (.write "./t") = none ∧
    watch_event_handler_spec canonicalize_example read_to_string_example "./t"
        (.write "./t") = some (.FileChanged "abc") :=
  ⟨rfl, rfl⟩

/-- Claim C9 as amended: for a write-like raw event (`NoticeWrite`,
`Create`, `Write`) the watch closure canonicalizes only the configured
target path and compares the event path verbatim against it; on a match
it reads the canonicalized target and emits `FileChanged{code}` on
success or `WatchError{error}` on failure; a non-matching path, a failed
canonicalization of the target, or any other event kind produces
nothing. -/
theorem c9_watch_target_canonical (canonicalize : String → Option String)
    (read_to_string : String → Except String String)
    (target path ctarget code err : String) :
    (canonicalize target = some ctarget → path = ctarget →
      read_to_string ctarget = .ok code →
      watch_event_handler canonicalize read_to_string target (.write path)
        = some (.FileChanged code)) ∧
    (canonicalize target = some ctarget → path = ctarget →
      read_to_string ctarget = .error err →
      watch_event_handler canonicalize read_to_string target (.write path)
        = some (.WatchError err)) ∧
    (canonicalize target = some ctarget → path ≠ ctarget →
      watch_event_handler canonicalize read_to_string target (.write path)
        = none) ∧
    (canonicalize target = none →
      watch_event_handler canonicalize read_to_string target (.write path)
        = none) ∧
    watch_event_handler canonicalize read_to_string target (.noticeWrite path)
      = watch_event_handler canonicalize read_to_string target (.write path) ∧
    watch_event_handler canonicalize read_to_string target (.create path)
      = watch_event_handler canonicalize read_to_string target (.write path) ∧
    watch_event_handler canonicalize read_to_string target (.remove path)
      = none ∧
    watch_event_handler canonicalize read_to_string target (.rename path target)
      = none ∧
    watch_event_handler canonicalize read_to_string target .rescan = none := by
  refine ⟨?_, ?_, ?_, ?_, rfl, rfl, rfl, rfl, rfl⟩
  · intro hc hp hr
    simp [watch_event_handler, hc, hp, hr]
  · intro hc hp hr
    simp [watch_event_handler, hc, hp, hr]
  · intro hc hp
    simp [watch_event_handler, hc, hp]
  · intro hc
    simp [watch_event_handler, hc]

/-- Instantiation of the C9 theorem at concrete canonicalization and
reader functions: a write event on the canonical path `/t` with target
`./t` emits `FileChanged{"abc"}`, and a write event on the unrelated
path `/x` emits nothing. -/
theorem c9_watch_target_canonical_witness :
    watch_event_handler canonicalize_example read_to_string_example "./t"
        (.write "/t") = some (.FileChanged "abc") ∧
    watch_event_handler canonicalize_example read_to_string_example "./t"
        (.write "/x") = none :=
  ⟨(c9_watch_target_canonical canonicalize_example read_to_string_example
      "./t" "/t" "/t" "abc" "e").1 rfl rfl rfl,
   (c9_watch_target_canonical canonicalize_example read_to_string_example
      "./t" "/x" "/t" "abc" "e").2.2.1 rfl (by decide)⟩

/-- Claim C10: every non-text WebSocket frame (binary, ping, pong,
close) falls through the session loop's `if let Text` with no effect at
all — no `error` reply, no controller notification — and the loop
continues; only text frames reach the parser. -/
theorem c10_nontext_ignored (parse : String → Except String ServerMessage) :
    handle_accept_step parse (.fromPeer (some .binary)) = ([], true) ∧
    handle_accept_step parse (.fromPeer (some .ping)) = ([], true) ∧
    handle_accept_step parse (.fromPeer (some .pong)) = ([], true) ∧
    handle_accept_step parse (.fromPeer (some .close)) = ([], true) :=
  ⟨rfl, rfl, rfl, rfl⟩
